import Mathlib

/-!
Verification development for the dRonin actuator module,
`src/flight/Modules/Actuator/actuator.c`.

Modelling conventions:
* `float` values are modelled as exact rationals (`ℚ`).
* IEEE division by zero (which yields NaN/Inf in the source and then
  propagates through further arithmetic) is modelled by `Option`: `none`
  stands for an undefined, non-finite result.
* `uint32_t` time arithmetic is modelled on `ℕ` with explicit reduction
  mod 2^32 (`u32sub`).
* The motor input/output curve fit `powapprox` lives outside this source
  file; it is passed as an explicit function parameter `pw` and is never
  relevant to the properties proved here.
-/

namespace Actuator

/-- Mixer row types, `MIXERSETTINGS_MIXER1TYPE_*`. -/
inductive MixerType where
  | Disabled
  | Motor
  | Servo
  | CameraRoll
  | CameraPitch
  | CameraYaw
deriving DecidableEq

/-- The subset of `ActuatorSettingsData` the actuator code reads.
Per-channel arrays are modelled as functions from the channel index. -/
structure ActuatorSettingsData where
  ChannelMin : ℕ → ℚ
  ChannelMax : ℕ → ℚ
  ChannelNeutral : ℕ → ℚ
  MotorsSpinWhileArmed : Bool
  MotorInputOutputCurveFit : ℚ
  LowPowerStabilizationMaxPowerAdd : ℚ
  LowPowerStabilizationMaxTime : ℚ

/-- CameraDesired object fields read by the actuator code. -/
structure CameraDesiredData where
  Roll : ℚ
  Pitch : ℚ
  Yaw : ℚ
deriving DecidableEq

/-- ActuatorDesired input object. -/
structure ActuatorDesiredData where
  Roll : ℚ
  Pitch : ℚ
  Yaw : ℚ
  Thrust : ℚ
deriving DecidableEq

/-- A mixer vector (one row of the mixer, or the desired command vector),
indexed by `MIXERSETTINGS_MIXER1VECTOR_*`: ThrottleCurve1, ThrottleCurve2,
Roll, Pitch, Yaw, Accessory0..2.  Entries are rationals (the cached,
already-scaled form). -/
structure MixerRow where
  ThrottleCurve1 : ℚ
  ThrottleCurve2 : ℚ
  Roll : ℚ
  Pitch : ℚ
  Yaw : ℚ
  Accessory0 : ℚ
  Accessory1 : ℚ
  Accessory2 : ℚ
deriving DecidableEq

/-- A raw `int16_t` mixer vector as stored in MixerSettings. -/
structure Mixer1Vector where
  ThrottleCurve1 : ℤ
  ThrottleCurve2 : ℤ
  Roll : ℤ
  Pitch : ℤ
  Yaw : ℤ
  Accessory0 : ℤ
  Accessory1 : ℤ
  Accessory2 : ℤ
deriving DecidableEq

/-- MIXER_SCALE (actuator.c:78): fixed divisor for integer coefficients. -/
def MIXER_SCALE : ℚ := 128

/-- System alarm severities used by the module. -/
inductive AlarmLevel where
  | Cleared
  | Critical
deriving DecidableEq

/-- uint32 wraparound subtraction `a - b` as computed on `uint32_t`. -/
def u32sub (a b : ℕ) : ℕ := (a + 4294967296 - b) % 4294967296

/-- scale_channel (actuator.c:852): convert a normalized channel value to a
servo pulse width in microseconds via the per-channel min/neutral/max, then
clamp into the channel range; the range may be inverted (max < min) for
reversed servos, in which case the clamp is performed in the inverted sense. -/
def scale_channel (s : ActuatorSettingsData) (value : ℚ) (idx : ℕ) : ℚ :=
  let mx := s.ChannelMax idx
  let mn := s.ChannelMin idx
  let neutral := s.ChannelNeutral idx
  let valueScaled :=
    if 0 ≤ value then value * (mx - neutral) + neutral
    else value * (neutral - mn) + neutral
  if mn < mx then
    if mx < valueScaled then mx
    else if valueScaled < mn then mn
    else valueScaled
  else
    if valueScaled < mx then mx
    else if mn < valueScaled then mn
    else valueScaled

/-- channel_failsafe_value (actuator.c:877): the raw value written for each
channel when entering failsafe.  Motor and Servo entries are already in
microseconds; Disabled yields the raw value -1 and camera types the raw
value 0, and `set_failsafe` performs no further scaling on them. -/
def channel_failsafe_value (s : ActuatorSettingsData) (types : ℕ → MixerType)
    (idx : ℕ) : ℚ :=
  match types idx with
  | MixerType.Motor => s.ChannelMin idx
  | MixerType.Servo => s.ChannelNeutral idx
  | MixerType.Disabled => -1
  | _ => 0

/-- Result of `set_failsafe`: the alarm it raises and the per-channel values.
The same `Channel` values are both written to the servo driver
(`PIOS_Servo_Set`) and published via `ActuatorCommandChannelSet`. -/
structure FailsafeResult where
  alarm : AlarmLevel
  Channel : ℕ → ℚ

/-- set_failsafe (actuator.c:896): raise the ACTUATOR alarm to Critical and
drive every channel to its failsafe value. -/
def set_failsafe (s : ActuatorSettingsData) (types : ℕ → MixerType) :
    FailsafeResult :=
  { alarm := AlarmLevel.Critical
    Channel := fun n => channel_failsafe_value s types n }

/-- First pass of post_process_scale_and_commit (actuator.c:437-487): the
per-channel value after the type-dependent replacement.  Disabled channels
become -1; Servo and Motor keep the mixer output; camera channels are
replaced from CameraDesired when present (-1 when absent).  The CameraYaw
arm reads CameraDesired's Roll field, exactly as the source does
(actuator.c:475-481 calls CameraDesiredRollGet). -/
def first_pass_value (cam : Option CameraDesiredData) (types : ℕ → MixerType)
    (motor_vect : ℕ → ℚ) (ct : ℕ) : ℚ :=
  match types ct with
  | MixerType.Disabled => -1
  | MixerType.Servo => motor_vect ct
  | MixerType.Motor => motor_vect ct
  | MixerType.CameraPitch =>
      (match cam with
       | some c => c.Pitch
       | none => -1)
  | MixerType.CameraRoll =>
      (match cam with
       | some c => c.Roll
       | none => -1)
  | MixerType.CameraYaw =>
      (match cam with
       | some c => c.Roll
       | none => -1)

/-- Clip statistics accumulated across Motor channels
(actuator.c:431-434, 449-457).  `none` for min/max models the initial
INFINITY / -INFINITY sentinels before any motor is seen. -/
structure ClipStats where
  min_chan : Option ℚ
  max_chan : Option ℚ
  neg_clip : ℚ
  num_motors : ℕ

/-- Fold one motor channel value into the clip statistics
(fminf/fmaxf accumulation, negative sum, motor count). -/
def update_stats (st : ClipStats) (v : ℚ) : ClipStats :=
  { min_chan := some (match st.min_chan with
      | none => v
      | some m => min m v)
    max_chan := some (match st.max_chan with
      | none => v
      | some m => max m v)
    neg_clip := if v < 0 then st.neg_clip + v else st.neg_clip
    num_motors := st.num_motors + 1 }

/-- Collect clip statistics over the Motor channels among channels
0..nact-1, from the raw mixer outputs (the first loop of
post_process_scale_and_commit). -/
def collect_stats (types : ℕ → MixerType) (motor_vect : ℕ → ℚ) (nact : ℕ) :
    ClipStats :=
  (List.range nact).foldl
    (fun st ct =>
      if types ct = MixerType.Motor then update_stats st (motor_vect ct)
      else st)
    ⟨none, none, 0, 0⟩

/-- The gain/offset clip-management policy (actuator.c:489-528).  With no
motors the comparisons against the INFINITY sentinels are all false and the
result is (1, 0), matched here by the `none` case. -/
def gain_offset (maxpoweradd : ℚ) (st : ClipStats) : ℚ × ℚ :=
  match st.min_chan, st.max_chan with
  | some mn0, some mx0 =>
      let gain := if 1 < mx0 - mn0 then 1 / (mx0 - mn0) else 1
      let mx := mx0 * gain
      let mn := mn0 * gain
      let offset :=
        if 1 < mx then 1 - mx
        else if mn < 0 then
          min (-mn) (st.neg_clip / (st.num_motors : ℚ) + maxpoweradd)
        else 0
      (gain, offset)
  | _, _ => (1, 0)

/-- The value of a Motor channel after gain/offset and the clamp of negative
values to 0, immediately before the `powapprox` curve fit is applied
(actuator.c:542-548). -/
def motor_pre_curve_fit (maxpoweradd : ℚ) (types : ℕ → MixerType) (nact : ℕ)
    (motor_vect : ℕ → ℚ) (ct : ℕ) : ℚ :=
  let go := gain_offset maxpoweradd (collect_stats types motor_vect nact)
  let v2 := motor_vect ct * go.1 + go.2
  if 0 < v2 then v2 else 0

/-- post_process_scale_and_commit (actuator.c:428-578): the pulse width
committed for channel `ct` on a normal tick.  This is the value stored in
`command.Channel[ct]`, which (in normal operation, when ActuatorCommand is
not flagged read-only by an external servo-configuration tool) is both
published and programmed to the servo driver.  `pw` is the `powapprox`
motor input/output curve fit. -/
def post_process_scale_and_commit (s : ActuatorSettingsData)
    (cam : Option CameraDesiredData) (types : ℕ → MixerType) (nact : ℕ)
    (motor_vect : ℕ → ℚ) (armed spin_while_armed stabilize_now : Bool)
    (pw : ℚ → ℚ → ℚ) (ct : ℕ) : ℚ :=
  let go := gain_offset s.LowPowerStabilizationMaxPowerAdd
      (collect_stats types motor_vect nact)
  let v0 := first_pass_value cam types motor_vect ct
  let v1 :=
    if types ct = MixerType.Motor then
      if !armed then -1
      else if !stabilize_now then
        (if !spin_while_armed then -1 else 0)
      else
        let v2 := v0 * go.1 + go.2
        if 0 < v2 then pw v2 s.MotorInputOutputCurveFit else 0
    else v0
  scale_channel s v1 ct

/-- Guarded rational division: `none` when the divisor is zero, where the
source's float division would produce NaN or Inf. -/
def fdiv (a b : ℚ) : Option ℚ := if b = 0 then none else some (a / b)

/-- transformActuatorMixture (actuator.c:256-333): tilt-rotor rotation of a
Motor mixer row about the body Y axis.  The rotation matrix entries cos θ
and sin θ are passed explicitly (the source builds Ry from cos(theta) and
sin(theta); its only call site uses theta = 0, hence cos = 1, sin = 0).
The source computes d = (pitchmix/curve1mix, -rollmix/curve1mix, 0) with no
guard: a zero thrust coefficient divides by zero and the resulting NaN/Inf
propagates into the written-back roll/pitch/yaw, modelled here as `none`. -/
def transformActuatorMixture (motormix : MixerRow)
    (cosTheta sinTheta : ℚ) : Option MixerRow :=
  let curve1mix := -motormix.ThrottleCurve1
  let rollmix := motormix.Roll
  let pitchmix := motormix.Pitch
  let yawmix := motormix.Yaw
  match fdiv pitchmix curve1mix, fdiv (-rollmix) curve1mix with
  | some dx, some dy =>
      -- F = (0, 0, -curve1mix); Frotated = Ry · F
      let F0 : ℚ := 0
      let F2 : ℚ := -curve1mix
      let Fr0 := cosTheta * F0 + sinTheta * F2
      let Fr1 : ℚ := 0
      let Fr2 := -sinTheta * F0 + cosTheta * F2
      -- tau = (0, 0, yawmix); taurotated = Ry · tau
      let taur0 := sinTheta * yawmix
      let taur1 : ℚ := 0
      let taur2 := cosTheta * yawmix
      -- CrossProduct(d, Frotated) with d = (dx, dy, 0)
      let temp0 := dy * Fr2 - Fr1 * 0
      let temp1 := Fr0 * 0 - dx * Fr2
      let temp2 := dx * Fr1 - Fr0 * dy
      some { motormix with
        ThrottleCurve1 := Fr2
        Roll := temp0 + taur0
        Pitch := temp1 + taur1
        Yaw := temp2 + taur2 }
  | _, _ => none

/-- compute_one_mixer (actuator.c:335-369): build one cached mixer row.
Rows of type other than Motor/Servo are zero-filled; otherwise the int16
coefficients are scaled by 1/MIXER_SCALE.  Motor rows then go through the
tilt transform; `rotorTiltActual` is hard-coded to 0.0 in the source, so
the transform is applied with cos = 1, sin = 0. -/
def compute_one_mixer (vals : Mixer1Vector) (type : MixerType) :
    Option MixerRow :=
  let row : MixerRow :=
    if type ≠ MixerType.Servo ∧ type ≠ MixerType.Motor then
      ⟨0, 0, 0, 0, 0, 0, 0, 0⟩
    else
      ⟨(vals.ThrottleCurve1 : ℚ) / MIXER_SCALE,
       (vals.ThrottleCurve2 : ℚ) / MIXER_SCALE,
       (vals.Roll : ℚ) / MIXER_SCALE,
       (vals.Pitch : ℚ) / MIXER_SCALE,
       (vals.Yaw : ℚ) / MIXER_SCALE,
       (vals.Accessory0 : ℚ) / MIXER_SCALE,
       (vals.Accessory1 : ℚ) / MIXER_SCALE,
       (vals.Accessory2 : ℚ) / MIXER_SCALE⟩
  if type = MixerType.Motor then transformActuatorMixture row 1 0
  else some row

/-- One row of the mixer multiply (actuator.c:793, matrix_mul_check):
dot product of a cached mixer row with the desired command vector. -/
def mixer_apply (row : MixerRow) (v : MixerRow) : ℚ :=
  row.ThrottleCurve1 * v.ThrottleCurve1 + row.ThrottleCurve2 * v.ThrottleCurve2 +
  row.Roll * v.Roll + row.Pitch * v.Pitch + row.Yaw * v.Yaw +
  row.Accessory0 * v.Accessory0 + row.Accessory1 * v.Accessory1 +
  row.Accessory2 * v.Accessory2

/-- fill_desired_vector (actuator.c:412-426): assemble the desired command
vector from the curve outputs and the desired attitude commands; the
accessory slots are filled from ManualControl separately. -/
def fill_desired_vector (desired : ActuatorDesiredData) (val1 val2 : ℚ)
    (acc0 acc1 acc2 : ℚ) : MixerRow :=
  { ThrottleCurve1 := val1
    ThrottleCurve2 := val2
    Roll := desired.Roll
    Pitch := desired.Pitch
    Yaw := desired.Yaw
    Accessory0 := acc0
    Accessory1 := acc1
    Accessory2 := acc2 }

/-- Modelled from the spec: `linear_interpolate` (misc_math.c) is not under
src/; the spec (section 4.4 and testable property 5) describes it as the
piecewise-linear remap of `[input_min, input_max]` across the curve's
points, clamped below the range, with identity-shaped tables acting as the
identity map. -/
def linear_interpolate (input : ℚ) (curve : List ℚ)
    (input_min input_max : ℚ) : ℚ :=
  let n := curve.length
  if n ≤ 1 then curve.headD 0
  else
    let scale := max ((input - input_min) / (input_max - input_min)) 0 *
      ((n : ℚ) - 1)
    let idx1 := min (Int.toNat ⌊scale⌋) (n - 2)
    let p1 := curve.getD idx1 0
    let p2 := curve.getD (idx1 + 1) 0
    p1 + (p2 - p1) * (scale - (idx1 : ℚ))

/-- throt_curve (actuator.c:829): throttle curve over input range [0,1]. -/
def throt_curve (input : ℚ) (curve : List ℚ) : ℚ :=
  linear_interpolate input curve 0 1

/-- collective_curve (actuator.c:844): secondary curve over input range
[-1,1]. -/
def collective_curve (input : ℚ) (curve : List ℚ) : ℚ :=
  linear_interpolate input curve (-1) 1

/-- Outcome of the arming / hang-time portion of normalize_input_data. -/
structure HangtimeResult where
  stabilize_now : Bool
  throttle_val : ℚ
  last_pos_throttle_time : ℕ

/-- The arming and low-power hang-time logic of normalize_input_data
(actuator.c:616-638).  `last_pos` is the static `last_pos_throttle_time`
carried between ticks (0 means unset); times are uint32 milliseconds. -/
def hangtime_step (s : ActuatorSettingsData) (armed : Bool)
    (throttle_val : ℚ) (this_systime last_pos : ℕ) : HangtimeResult :=
  let stabilize_now := armed && decide (0 < throttle_val)
  if stabilize_now then
    { stabilize_now := true
      throttle_val := throttle_val
      last_pos_throttle_time :=
        if s.LowPowerStabilizationMaxTime ≠ 0 then this_systime
        else last_pos }
  else if last_pos ≠ 0 then
    if ((u32sub this_systime last_pos : ℕ) : ℚ) <
        1000 * s.LowPowerStabilizationMaxTime then
      { stabilize_now := true
        throttle_val := 0
        last_pos_throttle_time := last_pos }
    else
      { stabilize_now := false
        throttle_val := throttle_val
        last_pos_throttle_time := 0 }
  else
    { stabilize_now := false
      throttle_val := throttle_val
      last_pos_throttle_time := last_pos }

/-- The interlock flag states, `enum actuator_interlock` (actuator.c:121). -/
inductive ActuatorInterlock where
  | Ok
  | StopRequest
  | Stopped
deriving DecidableEq

/-- One iteration of the interlock hold loop body (actuator.c:742-767).
`exp_time` is the uint32 deadline recorded on entry (`this_systime + 100`).
Returns (whether set_failsafe was called this iteration, the new flag
value).  The loop only writes the flag in the StopRequest arm; in
particular it never moves Stopped back to Ok. -/
def interlock_loop_body (exp_time this_systime : ℕ)
    (st : ActuatorInterlock) : Bool × ActuatorInterlock :=
  match st with
  | ActuatorInterlock.StopRequest =>
      (true,
        if 100 < u32sub exp_time this_systime then ActuatorInterlock.Stopped
        else ActuatorInterlock.StopRequest)
  | st => (false, st)

/-- Concrete settings used by witnesses and counterexamples: min 1000us,
max 2000us, neutral 1500us on every channel, 10% max power add, 0.5s
hang-time window. -/
def exampleSettings : ActuatorSettingsData :=
  { ChannelMin := fun _ => 1000
    ChannelMax := fun _ => 2000
    ChannelNeutral := fun _ => 1500
    MotorsSpinWhileArmed := false
    MotorInputOutputCurveFit := 1
    LowPowerStabilizationMaxPowerAdd := 1 / 10
    LowPowerStabilizationMaxTime := 1 / 2 }

/-- The four Motor rows of the S2 roll-saturation scenario: thrust
coefficient 128 (1.0 scaled), roll coefficients (+128, +128, -128, -128). -/
def c3_rows : ℕ → Mixer1Vector := fun ct =>
  if ct = 0 then ⟨128, 0, 128, 0, 0, 0, 0, 0⟩
  else if ct = 1 then ⟨128, 0, 128, 0, 0, 0, 0, 0⟩
  else if ct = 2 then ⟨128, 0, -128, 0, 0, 0, 0, 0⟩
  else ⟨128, 0, -128, 0, 0, 0, 0, 0⟩

/-- The S2 desired vector: roll = +1, pitch = yaw = 0, thrust = 0.5 through
the identity throttle curve [0,1] (so val1 = 0.5); the curve-2 slot is
irrelevant because every row's ThrottleCurve2 coefficient is 0. -/
def c3_desired_vect : MixerRow :=
  fill_desired_vector ⟨1, 0, 0, 1 / 2⟩ (throt_curve (1 / 2) [0, 1]) 0 0 0 0

/-- The S2 pre-clip motor vector: cached row (built by compute_one_mixer,
tilt transform at theta = 0 included) dotted with the desired vector. -/
def c3_motor_vect : ℕ → ℚ := fun ct =>
  mixer_apply ((compute_one_mixer (c3_rows ct) MixerType.Motor).getD
    ⟨0, 0, 0, 0, 0, 0, 0, 0⟩) c3_desired_vect

end Actuator

namespace Actuator

/-- Helper: scaling the normalized value -1 always lands exactly on the
configured channel minimum, whether or not the range is inverted. -/
theorem scale_channel_neg_one (s : ActuatorSettingsData) (idx : ℕ) :
    scale_channel s (-1) idx = s.ChannelMin idx := by
  have h : ∀ a b : ℚ, (-1) * (a - b) + a = b := by
    intro a b; ring
  simp only [scale_channel, if_neg (show ¬ (0 : ℚ) ≤ -1 by norm_num), h]
  split_ifs with h1 h2 h3 h4 <;> first | rfl | linarith

/-- C1: whenever FlightStatus.Armed is not Armed, every channel whose cached
mixer row type is Motor is committed at exactly the configured ChannelMin
pulse width, regardless of the mixer output, gain/offset, spin-while-armed
setting, stabilize flag, or curve fit. -/
theorem c1_disarmed_motor_channel_min (s : ActuatorSettingsData)
    (cam : Option CameraDesiredData) (types : ℕ → MixerType) (nact : ℕ)
    (motor_vect : ℕ → ℚ) (spin_while_armed stabilize_now : Bool)
    (pw : ℚ → ℚ → ℚ) (ct : ℕ)
    (hmotor : types ct = MixerType.Motor) (hct : ct < nact) :
    post_process_scale_and_commit s cam types nact motor_vect false
      spin_while_armed stabilize_now pw ct = s.ChannelMin ct := by
  simp only [post_process_scale_and_commit, hmotor, if_pos, Bool.not_false,
    if_true]
  exact scale_channel_neg_one s ct

/-- Witness for C1 at a concrete disarmed Motor channel. -/
theorem c1_witness :
    ((fun _ => MixerType.Motor) 0 = MixerType.Motor) ∧ 0 < 1 ∧
    post_process_scale_and_commit exampleSettings none
      (fun _ => MixerType.Motor) 1 (fun _ => 1) false true true
      (fun v _ => v) 0 = 1000 :=
  ⟨rfl, by decide,
    c1_disarmed_motor_channel_min exampleSettings none
      (fun _ => MixerType.Motor) 1 (fun _ => 1) true true (fun v _ => v) 0
      rfl (by decide)⟩

/-- C2 counterexample: a failsafe publication of a Disabled channel writes
the raw value -1 into ActuatorCommand, which lies below
min(ChannelMin, ChannelMax) = 1000 for the example settings. -/
theorem c2_counterexample :
    (set_failsafe exampleSettings (fun _ => MixerType.Disabled)).Channel 0 = -1 ∧
    ¬ (min (exampleSettings.ChannelMin 0) (exampleSettings.ChannelMax 0) ≤
        (set_failsafe exampleSettings (fun _ => MixerType.Disabled)).Channel 0) := by
  constructor
  · rfl
  · norm_num [set_failsafe, channel_failsafe_value, exampleSettings]

/-- C2 amended: on a normal tick every committed pulse width passes through
scale_channel, whose output always lies in the closed interval
[min(ChannelMin, ChannelMax), max(ChannelMin, ChannelMax)], with inverted
ranges allowed. -/
theorem c2_amended_pulse_in_range (s : ActuatorSettingsData) (value : ℚ)
    (idx : ℕ) :
    min (s.ChannelMin idx) (s.ChannelMax idx) ≤ scale_channel s value idx ∧
    scale_channel s value idx ≤ max (s.ChannelMin idx) (s.ChannelMax idx) := by
  rcases le_total (s.ChannelMin idx) (s.ChannelMax idx) with h | h
  · rw [min_eq_left h, max_eq_right h]
    simp only [scale_channel]
    split_ifs <;> constructor <;> linarith
  · rw [min_eq_right h, max_eq_left h]
    simp only [scale_channel]
    split_ifs <;> constructor <;> linarith


/-- C3 counterexample: in the armed roll-saturation scenario the source
accumulates neg_clip from the pre-gain motor values (-0.5 + -0.5 = -1.0),
so the average is -0.25 and the offset is min(0.25, -0.25 + 0.10) = -0.15,
not the claimed -0.025; the first motor's pre-curve-fit value is 0.6, not
the claimed 0.725. -/
theorem c3_counterexample :
    (gain_offset (1 / 10)
        (collect_stats (fun _ => MixerType.Motor) c3_motor_vect 4)).2 =
      -(3 / 20) ∧
    (-(3 / 20) : ℚ) ≠ -(1 / 40) ∧
    motor_pre_curve_fit (1 / 10) (fun _ => MixerType.Motor) 4
      c3_motor_vect 0 = 3 / 5 ∧
    (3 / 5 : ℚ) ≠ 29 / 40 := by
  have hmv0 : c3_motor_vect 0 = 3 / 2 := by
    norm_num [c3_motor_vect, c3_rows, c3_desired_vect, compute_one_mixer,
      transformActuatorMixture, fdiv, MIXER_SCALE, mixer_apply,
      fill_desired_vector, throt_curve, linear_interpolate]
  have hmv1 : c3_motor_vect 1 = 3 / 2 := by
    norm_num [c3_motor_vect, c3_rows, c3_desired_vect, compute_one_mixer,
      transformActuatorMixture, fdiv, MIXER_SCALE, mixer_apply,
      fill_desired_vector, throt_curve, linear_interpolate]
  have hmv2 : c3_motor_vect 2 = -(1 / 2) := by
    norm_num [c3_motor_vect, c3_rows, c3_desired_vect, compute_one_mixer,
      transformActuatorMixture, fdiv, MIXER_SCALE, mixer_apply,
      fill_desired_vector, throt_curve, linear_interpolate]
  have hmv3 : c3_motor_vect 3 = -(1 / 2) := by
    norm_num [c3_motor_vect, c3_rows, c3_desired_vect, compute_one_mixer,
      transformActuatorMixture, fdiv, MIXER_SCALE, mixer_apply,
      fill_desired_vector, throt_curve, linear_interpolate]
  have hstats : collect_stats (fun _ => MixerType.Motor) c3_motor_vect 4 =
      ⟨some (-(1 / 2)), some (3 / 2), -1, 4⟩ := by
    norm_num [collect_stats, List.range_succ, update_stats, hmv0, hmv1,
      hmv2, hmv3]
  have hgo : gain_offset (1 / 10)
      (collect_stats (fun _ => MixerType.Motor) c3_motor_vect 4) =
      (1 / 2, -(3 / 20)) := by
    rw [hstats]
    norm_num [gain_offset]
  refine ⟨by rw [hgo], by norm_num, ?_, by norm_num⟩
  simp only [motor_pre_curve_fit, hgo]
  norm_num [hmv0]

/-- C3 amended: the cached rows and pre-clip motor vector are as claimed
((1.5, 1.5, -0.5, -0.5)) and gain = 0.5, but neg_clip = -1.0 is collected
from the pre-gain motor values, so offset = min(0.25, -1.0/4 + 0.10) =
-0.15 and the final pre-curve-fit motor values are (0.6, 0.6, 0, 0). -/
theorem c3_amended :
    compute_one_mixer (c3_rows 0) MixerType.Motor =
      some ⟨1, 0, 1, 0, 0, 0, 0, 0⟩ ∧
    c3_motor_vect 0 = 3 / 2 ∧ c3_motor_vect 1 = 3 / 2 ∧
    c3_motor_vect 2 = -(1 / 2) ∧ c3_motor_vect 3 = -(1 / 2) ∧
    (collect_stats (fun _ => MixerType.Motor) c3_motor_vect 4).neg_clip =
      -1 ∧
    gain_offset (1 / 10)
        (collect_stats (fun _ => MixerType.Motor) c3_motor_vect 4) =
      (1 / 2, -(3 / 20)) ∧
    motor_pre_curve_fit (1 / 10) (fun _ => MixerType.Motor) 4
      c3_motor_vect 0 = 3 / 5 ∧
    motor_pre_curve_fit (1 / 10) (fun _ => MixerType.Motor) 4
      c3_motor_vect 1 = 3 / 5 ∧
    motor_pre_curve_fit (1 / 10) (fun _ => MixerType.Motor) 4
      c3_motor_vect 2 = 0 ∧
    motor_pre_curve_fit (1 / 10) (fun _ => MixerType.Motor) 4
      c3_motor_vect 3 = 0 := by
  have hmv0 : c3_motor_vect 0 = 3 / 2 := by
    norm_num [c3_motor_vect, c3_rows, c3_desired_vect, compute_one_mixer,
      transformActuatorMixture, fdiv, MIXER_SCALE, mixer_apply,
      fill_desired_vector, throt_curve, linear_interpolate]
  have hmv1 : c3_motor_vect 1 = 3 / 2 := by
    norm_num [c3_motor_vect, c3_rows, c3_desired_vect, compute_one_mixer,
      transformActuatorMixture, fdiv, MIXER_SCALE, mixer_apply,
      fill_desired_vector, throt_curve, linear_interpolate]
  have hmv2 : c3_motor_vect 2 = -(1 / 2) := by
    norm_num [c3_motor_vect, c3_rows, c3_desired_vect, compute_one_mixer,
      transformActuatorMixture, fdiv, MIXER_SCALE, mixer_apply,
      fill_desired_vector, throt_curve, linear_interpolate]
  have hmv3 : c3_motor_vect 3 = -(1 / 2) := by
    norm_num [c3_motor_vect, c3_rows, c3_desired_vect, compute_one_mixer,
      transformActuatorMixture, fdiv, MIXER_SCALE, mixer_apply,
      fill_desired_vector, throt_curve, linear_interpolate]
  have hstats : collect_stats (fun _ => MixerType.Motor) c3_motor_vect 4 =
      ⟨some (-(1 / 2)), some (3 / 2), -1, 4⟩ := by
    norm_num [collect_stats, List.range_succ, update_stats, hmv0, hmv1,
      hmv2, hmv3]
  have hgo : gain_offset (1 / 10)
      (collect_stats (fun _ => MixerType.Motor) c3_motor_vect 4) =
      (1 / 2, -(3 / 20)) := by
    rw [hstats]
    norm_num [gain_offset]
  refine ⟨?_, hmv0, hmv1, hmv2, hmv3, by rw [hstats], hgo, ?_, ?_, ?_, ?_⟩
  · norm_num [compute_one_mixer, c3_rows, transformActuatorMixture, fdiv,
      MIXER_SCALE, MixerRow.mk.injEq]
  all_goals
    simp only [motor_pre_curve_fit, hgo]
    norm_num [hmv0, hmv1, hmv2, hmv3]

/-- C4 counterexample: set_failsafe publishes the raw value -1 for a
Disabled channel; scaling -1 through the channel's min/neutral/max would
instead give ChannelMin = 1000, so the published value is not the scaled
one. -/
theorem c4_counterexample :
    (set_failsafe exampleSettings (fun _ => MixerType.Disabled)).Channel 0 =
      -1 ∧
    scale_channel exampleSettings (-1) 0 = 1000 ∧
    ((-1 : ℚ) ≠ 1000) := by
  refine ⟨rfl, ?_, by norm_num⟩
  rw [scale_channel_neg_one]
  norm_num [exampleSettings]

/-- C4 amended: when set_failsafe runs, the ACTUATOR alarm is Critical and
each channel value is selected by its cached row type: Motor gives
ChannelMin, Servo gives ChannelNeutral, Disabled gives the raw value -1
(not passed through the min/neutral/max scaling), and camera types give 0;
these values are published and programmed to the servo hardware. -/
theorem c4_amended (s : ActuatorSettingsData) (types : ℕ → MixerType)
    (idx : ℕ) :
    (set_failsafe s types).alarm = AlarmLevel.Critical ∧
    (types idx = MixerType.Motor →
      (set_failsafe s types).Channel idx = s.ChannelMin idx) ∧
    (types idx = MixerType.Servo →
      (set_failsafe s types).Channel idx = s.ChannelNeutral idx) ∧
    (types idx = MixerType.Disabled →
      (set_failsafe s types).Channel idx = -1) ∧
    (types idx = MixerType.CameraRoll ∨ types idx = MixerType.CameraPitch ∨
        types idx = MixerType.CameraYaw →
      (set_failsafe s types).Channel idx = 0) := by
  refine ⟨rfl, ?_, ?_, ?_, ?_⟩
  · intro h; simp [set_failsafe, channel_failsafe_value, h]
  · intro h; simp [set_failsafe, channel_failsafe_value, h]
  · intro h; simp [set_failsafe, channel_failsafe_value, h]
  · rintro (h | h | h) <;> simp [set_failsafe, channel_failsafe_value, h]

/-- Witness for C4 at a concrete Disabled channel. -/
theorem c4_witness :
    ((fun _ => MixerType.Disabled) 0 = MixerType.Disabled) ∧
    (set_failsafe exampleSettings (fun _ => MixerType.Disabled)).Channel 0 =
      -1 :=
  ⟨rfl,
    (c4_amended exampleSettings (fun _ => MixerType.Disabled) 0).2.2.2.1 rfl⟩

/-- C5: a Motor row whose thrust coefficient is 0 makes the tilt transform
divide by zero (d = pitch/c1), so building the mixer cache from it yields
an undefined row instead of the safe fallback the spec requires. -/
theorem c5_tilt_divzero :
    compute_one_mixer ⟨0, 0, 128, 0, 0, 0, 0, 0⟩ MixerType.Motor = none := by
  norm_num [compute_one_mixer, transformActuatorMixture, fdiv, MIXER_SCALE]

/-- C6: the CameraYaw arm of post-processing copies CameraDesired's Roll
field (0.3), not its Yaw field (0.7), when the object is present; when it
is absent the value is -1. -/
theorem c6_camera_yaw_copies_roll :
    first_pass_value (some ⟨3 / 10, 1 / 2, 7 / 10⟩)
      (fun _ => MixerType.CameraYaw) (fun _ => 0) 0 = 3 / 10 ∧
    ((3 / 10 : ℚ) ≠ 7 / 10) ∧
    first_pass_value none (fun _ => MixerType.CameraYaw) (fun _ => 0) 0 =
      -1 := by
  norm_num [first_pass_value]

/-- C7 counterexample: at tilt angle 0 the transform is not the identity on
a row with zero thrust coefficient and roll 1 — the division by the thrust
coefficient makes the result undefined rather than the input row. -/
theorem c7_counterexample :
    transformActuatorMixture ⟨0, 0, 1, 0, 0, 0, 0, 0⟩ 1 0 ≠
      some ⟨0, 0, 1, 0, 0, 0, 0, 0⟩ := by
  intro hcon
  norm_num [transformActuatorMixture, fdiv] at hcon
  exact Option.noConfusion hcon

/-- C7 amended: for tilt angle 0 (cos = 1, sin = 0) the tilt transform is
the identity on every mixer row whose thrust coefficient is nonzero. -/
theorem c7_amended_tilt_identity (m : MixerRow)
    (h : m.ThrottleCurve1 ≠ 0) :
    transformActuatorMixture m 1 0 = some m := by
  obtain ⟨a, b, c, d, e, f, g, i⟩ := m
  have ha : -a ≠ 0 := neg_ne_zero.mpr h
  simp only [transformActuatorMixture, fdiv, if_neg ha]
  simp only [Option.some.injEq, MixerRow.mk.injEq]
  refine ⟨by ring, trivial, ?_, ?_, ?_, trivial, trivial, trivial⟩ <;>
    field_simp

/-- Witness for C7 on a concrete row with nonzero thrust coefficient. -/
theorem c7_witness :
    ((⟨1, 0, 2, 3, 4, 0, 0, 0⟩ : MixerRow).ThrottleCurve1 ≠ 0) ∧
    transformActuatorMixture ⟨1, 0, 2, 3, 4, 0, 0, 0⟩ 1 0 =
      some ⟨1, 0, 2, 3, 4, 0, 0, 0⟩ :=
  ⟨by norm_num,
    c7_amended_tilt_identity ⟨1, 0, 2, 3, 4, 0, 0, 0⟩ (by norm_num)⟩


/-- C8: after a tick with armed and positive throttle (stabilize_now true,
time recorded), a subsequent tick with non-positive throttle within
LowPowerStabilizationMaxTime of the recorded time still forces
stabilize_now true with the curve throttle forced to 0 (not -1), and the
recorded time is kept; once the window has expired, the recorded time is
cleared and stabilize_now is false. -/
theorem c8_hangtime (s : ActuatorSettingsData) (armed2 : Bool)
    (th1 th2 : ℚ) (t1 t2 lastprev : ℕ)
    (hmax : 0 < s.LowPowerStabilizationMaxTime)
    (hth1 : 0 < th1) (hth2 : th2 ≤ 0)
    (ht1 : 0 < t1) (hle : t1 ≤ t2) (ht2 : t2 < 4294967296) :
    (hangtime_step s true th1 t1 lastprev).stabilize_now = true ∧
    (hangtime_step s true th1 t1 lastprev).last_pos_throttle_time = t1 ∧
    (((t2 - t1 : ℕ) : ℚ) < 1000 * s.LowPowerStabilizationMaxTime →
      (hangtime_step s armed2 th2 t2 t1).stabilize_now = true ∧
      (hangtime_step s armed2 th2 t2 t1).throttle_val = 0 ∧
      (hangtime_step s armed2 th2 t2 t1).last_pos_throttle_time = t1) ∧
    (1000 * s.LowPowerStabilizationMaxTime ≤ ((t2 - t1 : ℕ) : ℚ) →
      (hangtime_step s armed2 th2 t2 t1).stabilize_now = false ∧
      (hangtime_step s armed2 th2 t2 t1).last_pos_throttle_time = 0) := by
  have hd : u32sub t2 t1 = t2 - t1 := by
    simp only [u32sub]
    omega
  have hnth2 : ¬ (0 < th2) := not_lt.mpr hth2
  refine ⟨?_, ?_, ?_, ?_⟩
  · simp [hangtime_step, hth1]
  · simp [hangtime_step, hth1, hmax.ne']
  · intro hlt
    refine ⟨?_, ?_, ?_⟩ <;>
      simp [hangtime_step, hnth2, ht1.ne', hd, hlt]
  · intro hge
    refine ⟨?_, ?_⟩ <;>
      simp [hangtime_step, hnth2, ht1.ne', hd, not_lt.mpr hge]

/-- Witness for C8: positive throttle at t = 1000 ms, throttle dropped to 0
at t = 1200 ms, inside the 500 ms window of the example settings. -/
theorem c8_witness :
    (hangtime_step exampleSettings true (1 / 2) 1000 0).stabilize_now =
      true ∧
    (hangtime_step exampleSettings false 0 1200 1000).stabilize_now =
      true ∧
    (hangtime_step exampleSettings false 0 1200 1000).throttle_val = 0 := by
  have h := c8_hangtime exampleSettings false (1 / 2) 0 1000 1200 0
    (by norm_num [exampleSettings]) (by norm_num) le_rfl (by norm_num)
    (by norm_num) (by norm_num)
  exact ⟨h.1, (h.2.2.1 (by norm_num [exampleSettings])).1,
    (h.2.2.1 (by norm_num [exampleSettings])).2.1⟩

/-- C9: while the interlock flag reads StopRequest, each loop iteration
sets failsafe outputs and moves the flag to Stopped exactly when more than
100 ms have elapsed since entry (so at least 100 ms have elapsed); when the
flag reads Stopped or Ok the task leaves it unchanged — in particular the
task itself never transitions Stopped back to Ok. -/
theorem c9_interlock (entry now : ℕ) (h1 : entry ≤ now)
    (h2 : now ≤ entry + 2000000000) :
    interlock_loop_body (entry + 100) now ActuatorInterlock.StopRequest =
      (true,
        if 100 < now - entry then ActuatorInterlock.Stopped
        else ActuatorInterlock.StopRequest) ∧
    interlock_loop_body (entry + 100) now ActuatorInterlock.Stopped =
      (false, ActuatorInterlock.Stopped) ∧
    interlock_loop_body (entry + 100) now ActuatorInterlock.Ok =
      (false, ActuatorInterlock.Ok) := by
  refine ⟨?_, rfl, rfl⟩
  have h : (100 < u32sub (entry + 100) now) ↔ (100 < now - entry) := by
    simp only [u32sub]
    omega
  simp only [interlock_loop_body]
  rw [if_congr h rfl rfl]

/-- Witness for C9 at entry time 0 and current time 150 ms: the transition
to Stopped has happened (elapsed > 100 ms) and Stopped stays Stopped. -/
theorem c9_witness :
    interlock_loop_body 100 150 ActuatorInterlock.StopRequest =
      (true, ActuatorInterlock.Stopped) ∧
    interlock_loop_body 100 150 ActuatorInterlock.Stopped =
      (false, ActuatorInterlock.Stopped) := by
  have h := c9_interlock 0 150 (by norm_num) (by norm_num)
  refine ⟨?_, h.2.1⟩
  have h1 := h.1
  norm_num at h1
  exact h1

/-- C10: the armed / spin-while-armed / stabilize-now gating only affects
Motor channels: the committed value of any non-Motor channel on a normal
tick is independent of those flags, and a Servo channel's committed value
is its scaled mixer output. -/
theorem c10_non_motor_independent (s : ActuatorSettingsData)
    (cam : Option CameraDesiredData) (types : ℕ → MixerType) (nact : ℕ)
    (motor_vect : ℕ → ℚ) (armed1 armed2 spin1 spin2 stab1 stab2 : Bool)
    (pw : ℚ → ℚ → ℚ) (ct : ℕ) (h : types ct ≠ MixerType.Motor) :
    post_process_scale_and_commit s cam types nact motor_vect armed1 spin1
        stab1 pw ct =
      post_process_scale_and_commit s cam types nact motor_vect armed2 spin2
        stab2 pw ct ∧
    (types ct = MixerType.Servo →
      post_process_scale_and_commit s cam types nact motor_vect armed1 spin1
          stab1 pw ct =
        scale_channel s (motor_vect ct) ct) := by
  constructor
  · simp [post_process_scale_and_commit, h]
  · intro hs
    simp [post_process_scale_and_commit, h, first_pass_value, hs]

/-- Witness for C10 at a concrete Servo channel, armed versus disarmed. -/
theorem c10_witness :
    ((fun _ => MixerType.Servo) 0 ≠ MixerType.Motor) ∧
    post_process_scale_and_commit exampleSettings none
        (fun _ => MixerType.Servo) 1 (fun _ => 1 / 4) true false false
        (fun v _ => v) 0 =
      post_process_scale_and_commit exampleSettings none
        (fun _ => MixerType.Servo) 1 (fun _ => 1 / 4) false false false
        (fun v _ => v) 0 :=
  ⟨fun hcon => MixerType.noConfusion hcon,
    (c10_non_motor_independent exampleSettings none
      (fun _ => MixerType.Servo) 1 (fun _ => 1 / 4) true false false false
      false false (fun v _ => v) 0
      (fun hcon => MixerType.noConfusion hcon)).1⟩

end Actuator
